import Mathlib

/-!
Shallow embedding of the EHR-Integration-Dashboard proxy/session layer:
the FHIR patient data model and the route transforms (`src/unnamed/part_004`),
the patient edit merge (`src/app/components/patients/PatientsModal.tsx`),
and the axios refresh interceptor (`src/unnamed/part_006`).

JavaScript conventions embedded here:
* an optional field `x?: T` becomes `Option T`;
* `a || b` on a string falls back when the string is absent OR empty
  (JS falsiness), while `a ?? b` falls back only when absent;
* `arr?.[0]` becomes `Option.bind _ List.head?`;
* `arr?.find(p)` becomes `Option.bind _ (List.find? p)`.
-/

namespace EHR

/-- JS `||` on an optional string: falls back when the value is absent or
empty (empty strings are falsy in JS). -/
def jsOrString (o : Option String) (fallback : String) : String :=
  match o with
  | none => fallback
  | some s => if s = "" then fallback else s

/-- JS truthiness test for an optional string (`!x` is true for
`undefined`, `null` and `""`). -/
def jsTruthy (o : Option String) : Bool :=
  match o with
  | none => false
  | some s => s ≠ ""

/-! ## FHIR patient data model (interface `FhirPatient`, src/unnamed/part_004) -/

/-- A sub-extension node: `{ url, valueString? }`. -/
structure SubExtension where
  url : String
  valueString : Option String
  deriving DecidableEq, Repr

/-- A top-level extension node: `{ url, extension? }` (two-level nesting,
used for the ethnicity lookup). -/
structure Extension where
  url : String
  extension : Option (List SubExtension)
  deriving DecidableEq, Repr

/-- An identifier entry: `{ system?, value? }`. -/
structure Identifier where
  system : Option String
  value : Option String
  deriving DecidableEq, Repr

/-- A name entry. The route interface declares `{ family?, given? }`; the raw
document handled by the edit modal is untyped (`raw: any`) and FHIR name
elements may also carry `use`, `text`, `prefix` and `suffix` sub-fields
(modelled as `prefixList`/`suffixList`), which the modal's rebuilt name
element omits. -/
structure HumanName where
  use : Option String
  text : Option String
  family : Option String
  given : Option (List String)
  prefixList : Option (List String)
  suffixList : Option (List String)
  deriving DecidableEq, Repr

/-- A telecom entry: `{ system, value, use?, rank? }`. -/
structure Telecom where
  system : String
  value : String
  use : Option String
  rank : Option String
  deriving DecidableEq, Repr

/-- A marital-status coding entry: `{ system?, code?, display? }`. -/
structure Coding where
  system : Option String
  code : Option String
  display : Option String
  deriving DecidableEq, Repr

/-- Marital status: `{ coding?, text? }`. -/
structure MaritalStatus where
  coding : Option (List Coding)
  text : Option String
  deriving DecidableEq, Repr

/-- An address entry. -/
structure Address where
  use : Option String
  line : Option (List String)
  city : Option String
  state : Option String
  postalCode : Option String
  country : Option String
  deriving DecidableEq, Repr

/-- Resource metadata: `{ lastUpdated? }`. -/
structure Meta where
  lastUpdated : Option String
  deriving DecidableEq, Repr

/-- The FHIR patient resource (interface `FhirPatient` in
src/unnamed/part_004, lines 20-67). -/
structure FhirPatient where
  resourceType : String
  id : String
  meta : Option Meta
  extension : Option (List Extension)
  identifier : Option (List Identifier)
  active : Option Bool
  name : Option (List HumanName)
  telecom : Option (List Telecom)
  gender : Option String
  birthDate : Option String
  deceasedBoolean : Option Bool
  maritalStatus : Option MaritalStatus
  address : Option (List Address)
  deriving DecidableEq, Repr

/-- A patient resource with every optional field absent. -/
def emptyPatient (resourceType id : String) : FhirPatient :=
  { resourceType := resourceType, id := id, meta := none, extension := none,
    identifier := none, active := none, name := none, telecom := none,
    gender := none, birthDate := none, deceasedBoolean := none,
    maritalStatus := none, address := none }

/-! ## The flattened view (`transformedPatient.formatted`,
src/unnamed/part_004 lines 138-158, duplicated at lines 284-304) -/

/-- The flattened name: `{ family, given, full }`. -/
structure FormattedName where
  family : String
  given : List String
  full : String
  deriving DecidableEq, Repr

/-- The flattened patient view returned by `GET`/`PUT /api/patients/[id]`. -/
structure FormattedPatient where
  identifier : String
  name : FormattedName
  gender : String
  birthDate : String
  active : Bool
  deceased : Bool
  maritalStatus : String
  lastUpdated : String
  telecom : List Telecom
  address : List Address
  ethnicity : String
  deriving DecidableEq, Repr

/-- The fixed two-level ethnicity extension URL. -/
def ethnicityUrl : String :=
  "http://hl7.org/fhir/us/core/StructureDefinition/us-core-ethnicity"

/-- `patientData.extension?.find(ext => ext.url === ethnicityUrl)
      ?.extension?.find(subExt => subExt.url === 'text')?.valueString
      || 'Unspecified'`. -/
def lookupEthnicity (ext : Option (List Extension)) : String :=
  jsOrString
    ((((ext.bind (List.find? (fun e => e.url = ethnicityUrl))).bind
        Extension.extension).bind
        (List.find? (fun s => s.url = "text"))).bind
      SubExtension.valueString)
    "Unspecified"

/-- The `formatted` projection computed identically by the GET and PUT
handlers of `/api/patients/[id]` (src/unnamed/part_004 lines 138-158). -/
def formatPatient (p : FhirPatient) : FormattedPatient :=
  let name0 := p.name.bind List.head?
  { identifier := jsOrString ((p.identifier.bind List.head?).bind Identifier.value) "N/A",
    name :=
      { family := jsOrString (name0.bind HumanName.family) "Unknown",
        -- `given || ['Unknown']`: a present array is truthy even when empty
        given := ((name0.bind HumanName.given).getD ["Unknown"]),
        full := jsOrString ((name0.bind HumanName.given).bind List.head?) "Unknown"
          ++ " " ++ jsOrString (name0.bind HumanName.family) "Unknown" },
    gender := jsOrString p.gender "unknown",
    birthDate := jsOrString p.birthDate "Unknown",
    active := p.active.getD false,
    deceased := p.deceasedBoolean.getD false,
    maritalStatus := jsOrString (p.maritalStatus.bind MaritalStatus.text) "Unknown",
    lastUpdated := jsOrString (p.meta.bind Meta.lastUpdated) "Unknown",
    telecom := p.telecom.getD [],
    address := p.address.getD [],
    ethnicity := lookupEthnicity p.extension }

/-! ## List endpoint `GET /api/patients` (src/unnamed/part_004 lines 378-495) -/

/-- The resource inside a bundle entry (interface `FhirEntry.resource`,
src/unnamed/part_004 lines 359-371). -/
structure EntryResource where
  id : Option String
  identifier : Option (List Identifier)
  name : Option (List HumanName)
  gender : Option String
  birthDate : Option String
  active : Option Bool
  maritalStatus : Option MaritalStatus
  meta : Option Meta
  deriving DecidableEq, Repr

/-- A bundle entry: `{ fullUrl?, resource }`. -/
structure FhirEntry where
  fullUrl : Option String
  resource : EntryResource
  deriving DecidableEq, Repr

/-- A bundle navigation link: `{ relation, url }`. -/
structure FhirLink where
  relation : String
  url : String
  deriving DecidableEq, Repr

/-- The bundle returned by the remote list call: `{ total?, entry?, link? }`. -/
structure Bundle where
  total : Option Nat
  entry : Option (List FhirEntry)
  link : Option (List FhirLink)
  deriving DecidableEq, Repr

/-- An entry resource with every optional field absent. -/
def emptyEntryResource : EntryResource :=
  { id := none, identifier := none, name := none, gender := none,
    birthDate := none, active := none, maritalStatus := none, meta := none }

/-- One element of `transformedData.patients` (lines 440-459). `fullUrl` is
the only output field without a fallback: it is `entry.fullUrl` verbatim. -/
structure ListPatient where
  id : String
  fullUrl : Option String
  identifier : String
  name : FormattedName
  gender : String
  birthDate : String
  active : Bool
  maritalStatus : String
  lastUpdated : String
  deriving DecidableEq, Repr

/-- The per-entry map of the list transform (lines 440-459). `id` uses `??`
(nullish coalescing), the string fields use `||`. -/
def transformEntry (entry : FhirEntry) : ListPatient :=
  let patient := entry.resource
  let name0 := patient.name.bind List.head?
  { id := patient.id.getD "N/A",
    fullUrl := entry.fullUrl,
    identifier := jsOrString ((patient.identifier.bind List.head?).bind Identifier.value) "N/A",
    name :=
      { family := jsOrString (name0.bind HumanName.family) "Unknown",
        given := ((name0.bind HumanName.given).getD ["Unknown"]),
        full := jsOrString ((name0.bind HumanName.given).bind List.head?) "Unknown"
          ++ " " ++ jsOrString (name0.bind HumanName.family) "Unknown" },
    gender := jsOrString patient.gender "unknown",
    birthDate := jsOrString patient.birthDate "Unknown",
    active := patient.active.getD false,
    maritalStatus := jsOrString (patient.maritalStatus.bind MaritalStatus.text) "Unknown",
    lastUpdated := jsOrString (patient.meta.bind Meta.lastUpdated) "Unknown" }

/-- `transformedData.links` (lines 460-464): the self/next/prev URLs,
each found by its exact relation string. -/
structure BundleLinks where
  self : Option String
  next : Option String
  prev : Option String
  deriving DecidableEq, Repr

/-- `transformedData.pagination` (lines 465-469). -/
structure Pagination where
  currentPage : Int
  hasNext : Bool
  hasPrev : Bool
  deriving DecidableEq, Repr

/-- The whole `transformedData` (lines 437-470). -/
structure PatientListPage where
  total : Nat
  patients : List ListPatient
  links : BundleLinks
  pagination : Pagination
  deriving DecidableEq, Repr

/-- `data.link?.find(link => link.relation === rel)?.url`. -/
def findLinkUrl (link : Option (List FhirLink)) (rel : String) : Option String :=
  (link.bind (List.find? (fun l => l.relation = rel))).map FhirLink.url

/-- The list transform (src/unnamed/part_004 lines 437-470), taking the
parsed `page` query parameter as `currentPage`. `hasNext`/`hasPrev` test for
a link with relation `"next"` resp. `"prev"`. -/
def transformBundle (data : Bundle) (currentPage : Int) : PatientListPage :=
  { total := data.total.getD 0,
    patients := (data.entry.getD []).map transformEntry,
    links :=
      { self := findLinkUrl data.link "self",
        next := findLinkUrl data.link "next",
        prev := findLinkUrl data.link "prev" },
    pagination :=
      { currentPage := currentPage,
        hasNext := (data.link.bind (List.find? (fun l => l.relation = "next"))).isSome,
        hasPrev := (data.link.bind (List.find? (fun l => l.relation = "prev"))).isSome } }

/-! ## Login endpoint `POST /api/login` (src/unnamed/part_004 lines 496-584) -/

/-- Zod issues produced by `loginSchema.safeParse({username, password})`:
`z.string()` rejects a missing (null) value with a type issue — abstracted
here as "Required" — and `.min(1, msg)` rejects the empty string with the
configured message; what matters downstream is only that the issue list is
non-empty exactly when a field is missing or empty. -/
def loginIssues (username password : Option String) : List String :=
  (match username with
    | none => ["Required"]
    | some s => if s = "" then ["Username is required"] else []) ++
  (match password with
    | none => ["Required"]
    | some s => if s = "" then ["Password is required"] else [])

/-- What the login handler does after reading the form fields: either an
early 400 validation response (no outbound call), or the password-grant
POST to the remote grant endpoint. -/
inductive LoginAction where
  | badRequest (details : List String)
  | grantCall (username password : String)
  deriving DecidableEq, Repr

/-- The validation step of `POST /api/login` (lines 523-541): on a failed
parse, return 400 with the issues; otherwise issue the grant request with
the parsed credentials. -/
def loginRoute (username password : Option String) : LoginAction :=
  if loginIssues username password = [] then
    .grantCall (username.getD "") (password.getD "")
  else
    .badRequest (loginIssues username password)

/-- The token response body returned by the remote grant endpoint
(the fields the handler reads). -/
structure TokenResponse where
  access_token : String
  refresh_token : String
  deriving DecidableEq, Repr

/-- One `res.cookies.set(name, value, options)` call. -/
structure SetCookie where
  name : String
  value : String
  httpOnly : Bool
  secure : Bool
  sameSite : String
  maxAge : Nat
  deriving DecidableEq, Repr

/-- The successful login response (lines 550-567). -/
structure LoginSuccessResponse where
  body : TokenResponse
  cookies : List SetCookie
  deriving DecidableEq, Repr

/-- The success branch of `POST /api/login` (lines 550-567): return the raw
token response and set the two token cookies. `secure` is
`process.env.NODE_ENV === 'production'`, here the parameter `isProd`. -/
def loginSuccessResponse (isProd : Bool) (data : TokenResponse) : LoginSuccessResponse :=
  { body := data,
    cookies :=
      [ { name := "access_token", value := data.access_token,
          httpOnly := true, secure := isProd, sameSite := "strict",
          maxAge := 3600 },
        { name := "refresh_token", value := data.refresh_token,
          httpOnly := true, secure := isProd, sameSite := "strict",
          maxAge := 86400 * 7 } ] }

/-! ## Update endpoint `PUT /api/patients/[id]` (src/unnamed/part_004
lines 187-244) -/

/-- The parsed JSON body of a PUT request: the two validated fields plus the
rest of the document, forwarded verbatim. -/
structure PutBody where
  resourceType : Option String
  id : Option String
  rest : List (String × String)
  deriving DecidableEq, Repr

/-- Outcome of the PUT handler up to the remote call: either an early JSON
error response (no remote call is made), or the PUT forwarded to the remote
API path for `pathId` with the body verbatim. -/
inductive PutOutcome where
  | response (status : Nat) (errMsg : String)
  | forward (pathId : String) (body : PutBody)
  deriving DecidableEq, Repr

/-- The guard chain of `PUT /api/patients/[id]` (lines 192-244): empty path
id → 400; no access-token cookie → 401; missing/empty `resourceType` or
`id` in the body → 400; body id ≠ path id → 400 id-mismatch; otherwise the
body is forwarded to the remote PUT path for the path id. -/
def putPatientRoute (pathId : String) (accessToken : Option String)
    (body : PutBody) : PutOutcome :=
  if pathId = "" then .response 400 "Patient ID is required"
  else
    match accessToken with
    | none => .response 401 "Unauthorized - No access token found"
    | some _ =>
      if ¬ jsTruthy body.resourceType ∨ ¬ jsTruthy body.id then
        .response 400 "Invalid patient data - resourceType and id are required"
      else if body.id ≠ some pathId then
        .response 400 "Patient ID in URL does not match ID in request body"
      else
        .forward pathId body

/-! ## Edit-form merge (`handleSave`,
src/app/components/patients/PatientsModal.tsx lines 131-153) -/

/-- The modal's form state (`formData`): the six editable fields. -/
structure EditForm where
  telecom : List Telecom
  nameFamily : String
  nameGiven : List String
  gender : String
  birthDate : String
  active : Bool
  maritalStatus : String
  deriving DecidableEq, Repr

/-- The `updatedPatient` object built by `handleSave` (lines 137-153):
spread of `patient.raw` with the six edited fields overridden. The `name`
key is replaced by a one-element array holding only the edited family and
given names; `maritalStatus` spreads the existing object and overrides only
`text` (`{...patient.raw.maritalStatus, text: formData.maritalStatus}`,
which is `{text}` alone when `raw.maritalStatus` is absent). -/
def mergeEdits (raw : FhirPatient) (form : EditForm) : FhirPatient :=
  { raw with
    telecom := some form.telecom,
    name := some [{ use := none, text := none,
                    family := some form.nameFamily,
                    given := some form.nameGiven,
                    prefixList := none, suffixList := none }],
    gender := some form.gender,
    birthDate := some form.birthDate,
    active := some form.active,
    maritalStatus := some
      { coding := raw.maritalStatus.bind MaritalStatus.coding,
        text := some form.maritalStatus } }

/-! ## Response interceptor of the axios client (src/unnamed/part_006
lines 71-160) -/

/-- The per-request mutable config the interceptor sees: the custom
`_retry` marker and the `Authorization` header. -/
structure ReqConfig where
  retryFlag : Bool
  auth : Option String
  deriving DecidableEq, Repr

/-- What the rejection handler decides to do with a failed request. -/
inductive HandlerAction where
  | surface
  | enqueue
  | startRefresh
  deriving DecidableEq, Repr

/-- The branch structure of the rejection handler (lines 79-94): a 401
response whose config has no `_retry` marker is enqueued when a refresh is
in flight and otherwise starts a refresh; every other error is surfaced
(`return Promise.reject(error)`). -/
def interceptorDecision (status : Nat) (retryFlag isRefreshing : Bool) :
    HandlerAction :=
  if status = 401 ∧ retryFlag = false then
    if isRefreshing then .enqueue else .startRefresh
  else .surface

/-- The continuation of a queued request (lines 84-89): when the queued
promise resolves with the refreshed token, the `Authorization` header is
set and the original config is re-issued. `_retry` is not written on this
path. -/
def queuedResume (cfg : ReqConfig) (token : String) : ReqConfig :=
  { cfg with auth := some token }

/-- The triggering request's path (lines 93 and 137-138): `_retry` is set
to `true` before the refresh, and the header is set to the refreshed token
before the retry. -/
def triggerResume (cfg : ReqConfig) (token : String) : ReqConfig :=
  { cfg with retryFlag := true, auth := some token }

/-! ## Refresh-protocol state machine (src/unnamed/part_006 lines 30-160)

JavaScript is single-threaded: the rejection handler runs atomically from
its entry until its first `await`, and the continuation after
`await axios.post(...)` (lines 130-155, including the `finally`) runs
atomically as well.  Each `Step` below is one such synchronous segment.
A request that hit 401 has its handler already sitting in the microtask
queue, so it runs before the refresh POST's network response can be
delivered; the completion steps therefore require every received 401 to
have been handled.  `refreshIssued`, `refreshDone`, `everTrigger` and
`everQueued` are ghost history fields that record what happened; they are
not read by any step. -/

/-- Phase of one logical request in the refresh protocol. -/
inductive ReqPhase where
  /-- rejected with 401; its handler has not yet run -/
  | received401
  /-- pushed onto `failedQueue` while a refresh was in flight (line 82) -/
  | queued
  /-- its handler issued the refresh POST now in flight (lines 93-128) -/
  | triggering
  /-- re-issued with header `Bearer token` (lines 84-89 or 137-142) -/
  | retried (token : String)
  /-- rejected to the caller -/
  | failed
  deriving DecidableEq, Repr

/-- The client's refresh state together with ghost history fields. -/
structure ClientState where
  /-- the module-level `isRefreshing` flag (line 31) -/
  isRefreshing : Bool
  /-- number of refresh POSTs awaiting a response -/
  refreshInFlight : Nat
  /-- ghost: total refresh POSTs issued to the grant endpoint -/
  refreshIssued : Nat
  /-- ghost: total refresh POSTs completed (success or failure) -/
  refreshDone : Nat
  /-- the request whose handler owns the in-flight refresh -/
  curTrigger : Option Nat
  /-- ghost: the request that issued a refresh, once one has -/
  everTrigger : Option Nat
  /-- ghost: every request ever pushed onto `failedQueue` -/
  everQueued : List Nat
  /-- per-request phase -/
  phase : Nat → ReqPhase

/-- Point update of the phase map. -/
def setPhase (f : Nat → ReqPhase) (r : Nat) (p : ReqPhase) : Nat → ReqPhase :=
  fun x => if x = r then p else f x

@[simp] theorem setPhase_same (f : Nat → ReqPhase) (r : Nat) (p : ReqPhase) :
    setPhase f r p r = p := by
  simp [setPhase]

@[simp] theorem setPhase_other (f : Nat → ReqPhase) (r x : Nat) (p : ReqPhase)
    (h : x ≠ r) : setPhase f r p x = f x := by
  simp [setPhase, h]

/-- Initial state for the single-flight scenario: the requests in `ids`
have all received a 401 and no refresh is in flight. -/
def initState (ids : List Nat) : ClientState :=
  { isRefreshing := false, refreshInFlight := 0, refreshIssued := 0,
    refreshDone := 0, curTrigger := none, everTrigger := none,
    everQueued := [],
    phase := fun r => if r ∈ ids then .received401 else .failed }

/-- One atomic segment of the interceptor.  `ids` is the set of concurrent
requests; `tokPresent` says whether a `refresh_token` cookie exists. -/
inductive Step (ids : List Nat) (tokPresent : Bool) :
    ClientState → ClientState → Prop where
  /-- Handler runs while a refresh is in flight (lines 80-83): the request
  is pushed onto `failedQueue`. -/
  | enqueue (s : ClientState) (r : Nat) (hr : r ∈ ids)
      (hp : s.phase r = .received401) (href : s.isRefreshing = true) :
      Step ids tokPresent s
        { s with phase := setPhase s.phase r .queued,
                 everQueued := r :: s.everQueued }
  /-- Handler runs while idle and a refresh token exists (lines 93-128):
  `_retry` and `isRefreshing` are set and the refresh POST is issued, all
  before the first `await`. -/
  | trigger (s : ClientState) (r : Nat) (hr : r ∈ ids)
      (hp : s.phase r = .received401) (href : s.isRefreshing = false)
      (htok : tokPresent = true) :
      Step ids tokPresent s
        { s with isRefreshing := true,
                 refreshInFlight := s.refreshInFlight + 1,
                 refreshIssued := s.refreshIssued + 1,
                 curTrigger := some r, everTrigger := some r,
                 phase := setPhase s.phase r .triggering }
  /-- Handler runs while idle and no refresh token exists (lines 109-114
  and the `finally`): the request is rejected; `isRefreshing` is reset
  within the same segment, so the net state change is only the phase. -/
  | noToken (s : ClientState) (r : Nat) (hr : r ∈ ids)
      (hp : s.phase r = .received401) (href : s.isRefreshing = false)
      (htok : tokPresent = false) :
      Step ids tokPresent s
        { s with phase := setPhase s.phase r .failed }
  /-- The refresh POST succeeds (lines 130-142 plus the `finally`): cookies
  are rewritten, every queued request is resolved with the new token and
  re-issued, the trigger re-issues its own request, and `isRefreshing` is
  cleared. -/
  | refreshOk (s : ClientState) (t : Nat) (tok : String)
      (hf : 0 < s.refreshInFlight) (ht : s.curTrigger = some t)
      (hdrain : ∀ r ∈ ids, s.phase r ≠ .received401) :
      Step ids tokPresent s
        { s with isRefreshing := false,
                 refreshInFlight := s.refreshInFlight - 1,
                 refreshDone := s.refreshDone + 1,
                 curTrigger := none,
                 phase := fun x =>
                   if x = t then .retried tok
                   else if s.phase x = .queued then .retried tok
                   else s.phase x }
  /-- The refresh POST fails (lines 143-155): every queued request is
  rejected, cookies are cleared, the trigger's call is rejected, and
  `isRefreshing` is cleared. -/
  | refreshFail (s : ClientState) (t : Nat)
      (hf : 0 < s.refreshInFlight) (ht : s.curTrigger = some t)
      (hdrain : ∀ r ∈ ids, s.phase r ≠ .received401) :
      Step ids tokPresent s
        { s with isRefreshing := false,
                 refreshInFlight := s.refreshInFlight - 1,
                 refreshDone := s.refreshDone + 1,
                 curTrigger := none,
                 phase := fun x =>
                   if x = t then .failed
                   else if s.phase x = .queued then .failed
                   else s.phase x }

/-- States reachable from the single-flight initial state. -/
inductive Reach (ids : List Nat) (tokPresent : Bool) : ClientState → Prop where
  | init : Reach ids tokPresent (initState ids)
  | step {s s' : ClientState} : Reach ids tokPresent s →
      Step ids tokPresent s s' → Reach ids tokPresent s'

/-- Inductive invariant of the refresh protocol. -/
structure Inv (ids : List Nat) (s : ClientState) : Prop where
  flightFlag : s.refreshInFlight = (if s.isRefreshing then 1 else 0)
  issuedEq : s.refreshIssued = s.refreshDone + s.refreshInFlight
  doneLe : s.refreshDone ≤ 1
  trigIff : s.curTrigger.isSome = s.isRefreshing
  trigPhase : ∀ t, s.curTrigger = some t → t ∈ ids ∧ s.phase t = .triggering
  trigOfPhase : ∀ r ∈ ids, s.phase r = .triggering → s.curTrigger = some r
  trigEver : ∀ t, s.curTrigger = some t → s.everTrigger = some t
  trigHistory : s.everTrigger.isSome = true →
    s.isRefreshing = true ∨ 0 < s.refreshDone
  doneTerminal : 0 < s.refreshDone → ∀ r ∈ ids,
    (∃ tk, s.phase r = .retried tk) ∨ s.phase r = .failed
  refreshingNotDone : s.isRefreshing = true → s.refreshDone = 0
  noEarlyRetry : s.refreshDone = 0 → ∀ r ∈ ids, ∀ tk, s.phase r ≠ .retried tk
  sameTok : ∃ tok, ∀ r ∈ ids, ∀ tk, s.phase r = .retried tk → tk = tok
  provenance : ∀ r ∈ ids, s.phase r ≠ .received401 →
    s.everTrigger = some r ∨ r ∈ s.everQueued ∨ s.phase r = .failed

/-- Once a refresh has completed, no request still awaits its 401 handler. -/
theorem Inv.no401AfterDone {ids : List Nat} {s : ClientState} {r : Nat}
    (hI : Inv ids s) (hd : 0 < s.refreshDone) (hr : r ∈ ids)
    (hp : s.phase r = .received401) : False := by
  rcases hI.doneTerminal hd r hr with ⟨tk, h⟩ | h <;> rw [hp] at h <;> simp at h

/-- A refresh in flight means the `isRefreshing` flag is set. -/
theorem Inv.refreshingOfFlight {ids : List Nat} {s : ClientState}
    (hI : Inv ids s) (hf : 0 < s.refreshInFlight) : s.isRefreshing = true := by
  cases h : s.isRefreshing with
  | false => rw [hI.flightFlag, h] at hf; simp at hf
  | true => rfl

/-- The invariant holds initially. -/
theorem inv_init (ids : List Nat) : Inv ids (initState ids) := by
  refine ⟨rfl, rfl, by simp [initState], rfl, ?_, ?_, ?_, ?_, ?_, ?_, ?_, ?_, ?_⟩
  · intro t h; simp [initState] at h
  · intro r hr hph; simp [initState, hr] at hph
  · intro t h; simp [initState] at h
  · intro h; simp [initState] at h
  · intro hd; simp [initState] at hd
  · intro _; rfl
  · intro _ r hr tk; simp [initState, hr]
  · exact ⟨"", fun r hr tk h => by simp [initState, hr] at h⟩
  · intro r hr hne; exact absurd (by simp [initState, hr]) hne

/-- The invariant is preserved by every step. -/
theorem inv_step {ids : List Nat} {tokPresent : Bool} {s s' : ClientState}
    (hI : Inv ids s) (hstep : Step ids tokPresent s s') : Inv ids s' := by
  cases hstep with
  | enqueue r hr hp href =>
    refine ⟨hI.flightFlag, hI.issuedEq, hI.doneLe, hI.trigIff, ?_, ?_,
      hI.trigEver, hI.trigHistory, ?_, hI.refreshingNotDone, ?_, ?_, ?_⟩
    · intro t h
      obtain ⟨htid, htph⟩ := hI.trigPhase t h
      refine ⟨htid, ?_⟩
      show setPhase s.phase r .queued t = .triggering
      by_cases heq : t = r
      · rw [heq] at htph; rw [hp] at htph; simp at htph
      · rw [setPhase_other _ _ _ _ heq]; exact htph
    · intro r' hr' hph
      have hph' : setPhase s.phase r .queued r' = .triggering := hph
      by_cases heq : r' = r
      · rw [heq, setPhase_same] at hph'; simp at hph'
      · rw [setPhase_other _ _ _ _ heq] at hph'
        exact hI.trigOfPhase r' hr' hph'
    · intro hd
      exact absurd hp (fun hp' => hI.no401AfterDone hd hr hp')
    · intro hd r' hr' tk
      show setPhase s.phase r .queued r' ≠ .retried tk
      by_cases heq : r' = r
      · rw [heq, setPhase_same]; simp
      · rw [setPhase_other _ _ _ _ heq]
        exact hI.noEarlyRetry hd r' hr' tk
    · obtain ⟨tok, htok⟩ := hI.sameTok
      refine ⟨tok, fun r' hr' tk h => ?_⟩
      have h' : setPhase s.phase r .queued r' = .retried tk := h
      by_cases heq : r' = r
      · rw [heq, setPhase_same] at h'; simp at h'
      · rw [setPhase_other _ _ _ _ heq] at h'
        exact htok r' hr' tk h'
    · intro r' hr' hne
      by_cases heq : r' = r
      · refine Or.inr (Or.inl ?_)
        show r' ∈ r :: s.everQueued
        rw [heq]; exact List.mem_cons_self _ _
      · have hne' : s.phase r' ≠ .received401 := by
          intro hcon
          apply hne
          show setPhase s.phase r .queued r' = .received401
          rw [setPhase_other _ _ _ _ heq]; exact hcon
        rcases hI.provenance r' hr' hne' with h | h | h
        · exact Or.inl h
        · exact Or.inr (Or.inl (List.mem_cons_of_mem _ h))
        · refine Or.inr (Or.inr ?_)
          show setPhase s.phase r .queued r' = .failed
          rw [setPhase_other _ _ _ _ heq]; exact h
  | trigger r hr hp href htok =>
    have hfl0 : s.refreshInFlight = 0 := by simp [hI.flightFlag, href]
    have hdone0 : s.refreshDone = 0 := by
      rcases Nat.eq_zero_or_pos s.refreshDone with h | h
      · exact h
      · exact absurd hp (fun hp' => hI.no401AfterDone h hr hp')
    refine ⟨?_, ?_, hI.doneLe, rfl, ?_, ?_, ?_, ?_, ?_, ?_, ?_, ?_, ?_⟩
    · simp [hfl0]
    · have h1 := hI.issuedEq
      show s.refreshIssued + 1 = s.refreshDone + (s.refreshInFlight + 1)
      omega
    · intro t h
      have h' : some r = some t := h
      injection h' with h'
      subst h'
      refine ⟨hr, ?_⟩
      show setPhase s.phase r .triggering r = .triggering
      rw [setPhase_same]
    · intro r' hr' hph
      have hph' : setPhase s.phase r .triggering r' = .triggering := hph
      by_cases heq : r' = r
      · show some r = some r'
        rw [heq]
      · rw [setPhase_other _ _ _ _ heq] at hph'
        exfalso
        have hct := hI.trigOfPhase r' hr' hph'
        have hsome : s.curTrigger.isSome = true := by rw [hct]; rfl
        rw [hI.trigIff, href] at hsome
        exact Bool.false_ne_true hsome
    · intro t h
      exact h
    · intro _; exact Or.inl rfl
    · intro hd r' hr'
      exact absurd hp (fun hp' => hI.no401AfterDone hd hr hp')
    · intro _; exact hdone0
    · intro _ r' hr' tk
      show setPhase s.phase r .triggering r' ≠ .retried tk
      by_cases heq : r' = r
      · rw [heq, setPhase_same]; simp
      · rw [setPhase_other _ _ _ _ heq]
        exact hI.noEarlyRetry hdone0 r' hr' tk
    · obtain ⟨tok2, htokk⟩ := hI.sameTok
      refine ⟨tok2, fun r' hr' tk h => ?_⟩
      have h' : setPhase s.phase r .triggering r' = .retried tk := h
      by_cases heq : r' = r
      · rw [heq, setPhase_same] at h'; simp at h'
      · rw [setPhase_other _ _ _ _ heq] at h'
        exact htokk r' hr' tk h'
    · intro r' hr' hne
      by_cases heq : r' = r
      · refine Or.inl ?_
        show some r = some r'
        rw [heq]
      · have hne' : s.phase r' ≠ .received401 := by
          intro hcon
          apply hne
          show setPhase s.phase r .triggering r' = .received401
          rw [setPhase_other _ _ _ _ heq]; exact hcon
        rcases hI.provenance r' hr' hne' with h | h | h
        · exfalso
          have hsome : s.everTrigger.isSome = true := by rw [h]; rfl
          rcases hI.trigHistory hsome with h' | h'
          · rw [href] at h'; exact Bool.false_ne_true h'
          · omega
        · exact Or.inr (Or.inl h)
        · refine Or.inr (Or.inr ?_)
          show setPhase s.phase r .triggering r' = .failed
          rw [setPhase_other _ _ _ _ heq]; exact h
  | noToken r hr hp href htok =>
    refine ⟨hI.flightFlag, hI.issuedEq, hI.doneLe, hI.trigIff, ?_, ?_,
      hI.trigEver, hI.trigHistory, ?_, hI.refreshingNotDone, ?_, ?_, ?_⟩
    · intro t h
      obtain ⟨htid, htph⟩ := hI.trigPhase t h
      refine ⟨htid, ?_⟩
      show setPhase s.phase r .failed t = .triggering
      by_cases heq : t = r
      · rw [heq] at htph; rw [hp] at htph; simp at htph
      · rw [setPhase_other _ _ _ _ heq]; exact htph
    · intro r' hr' hph
      have hph' : setPhase s.phase r .failed r' = .triggering := hph
      by_cases heq : r' = r
      · rw [heq, setPhase_same] at hph'; simp at hph'
      · rw [setPhase_other _ _ _ _ heq] at hph'
        exact hI.trigOfPhase r' hr' hph'
    · intro hd
      exact absurd hp (fun hp' => hI.no401AfterDone hd hr hp')
    · intro hd r' hr' tk
      show setPhase s.phase r .failed r' ≠ .retried tk
      by_cases heq : r' = r
      · rw [heq, setPhase_same]; simp
      · rw [setPhase_other _ _ _ _ heq]
        exact hI.noEarlyRetry hd r' hr' tk
    · obtain ⟨tok, htokk⟩ := hI.sameTok
      refine ⟨tok, fun r' hr' tk h => ?_⟩
      have h' : setPhase s.phase r .failed r' = .retried tk := h
      by_cases heq : r' = r
      · rw [heq, setPhase_same] at h'; simp at h'
      · rw [setPhase_other _ _ _ _ heq] at h'
        exact htokk r' hr' tk h'
    · intro r' hr' hne
      by_cases heq : r' = r
      · refine Or.inr (Or.inr ?_)
        show setPhase s.phase r .failed r' = .failed
        rw [heq, setPhase_same]
      · have hne' : s.phase r' ≠ .received401 := by
          intro hcon
          apply hne
          show setPhase s.phase r .failed r' = .received401
          rw [setPhase_other _ _ _ _ heq]; exact hcon
        rcases hI.provenance r' hr' hne' with h | h | h
        · exact Or.inl h
        · exact Or.inr (Or.inl h)
        · refine Or.inr (Or.inr ?_)
          show setPhase s.phase r .failed r' = .failed
          rw [setPhase_other _ _ _ _ heq]; exact h
  | refreshOk t tok hf ht hdrain =>
    have hrefr : s.isRefreshing = true := hI.refreshingOfFlight hf
    have hfl1 : s.refreshInFlight = 1 := by simp [hI.flightFlag, hrefr]
    have hdone0 : s.refreshDone = 0 := hI.refreshingNotDone hrefr
    refine ⟨?_, ?_, ?_, rfl, ?_, ?_, ?_, ?_, ?_, ?_, ?_, ?_, ?_⟩
    · show s.refreshInFlight - 1 = if (false : Bool) then 1 else 0
      rw [hfl1]
      simp
    · have h1 := hI.issuedEq
      show s.refreshIssued = (s.refreshDone + 1) + (s.refreshInFlight - 1)
      omega
    · show s.refreshDone + 1 ≤ 1
      omega
    · intro t' h; simp at h
    · intro r' hr' hph
      exfalso
      have hph' : (if r' = t then ReqPhase.retried tok
          else if s.phase r' = ReqPhase.queued then ReqPhase.retried tok
          else s.phase r') = ReqPhase.triggering := hph
      by_cases heq : r' = t
      · rw [if_pos heq] at hph'; simp at hph'
      · rw [if_neg heq] at hph'
        by_cases hq : s.phase r' = ReqPhase.queued
        · rw [if_pos hq] at hph'; simp at hph'
        · rw [if_neg hq] at hph'
          have hct := hI.trigOfPhase r' hr' hph'
          rw [ht] at hct
          injection hct with hct
          exact heq hct.symm
    · intro t' h; simp at h
    · intro _; exact Or.inr (Nat.succ_pos _)
    · intro _ r' hr'
      by_cases heq : r' = t
      · refine Or.inl ⟨tok, ?_⟩
        show (if r' = t then ReqPhase.retried tok
          else if s.phase r' = ReqPhase.queued then ReqPhase.retried tok
          else s.phase r') = ReqPhase.retried tok
        rw [if_pos heq]
      · by_cases hq : s.phase r' = ReqPhase.queued
        · refine Or.inl ⟨tok, ?_⟩
          show (if r' = t then ReqPhase.retried tok
            else if s.phase r' = ReqPhase.queued then ReqPhase.retried tok
            else s.phase r') = ReqPhase.retried tok
          rw [if_neg heq, if_pos hq]
        · have hsame : (if r' = t then ReqPhase.retried tok
              else if s.phase r' = ReqPhase.queued then ReqPhase.retried tok
              else s.phase r') = s.phase r' := by
            rw [if_neg heq, if_neg hq]
          cases hph : s.phase r' with
          | received401 => exact absurd hph (hdrain r' hr')
          | queued => exact absurd hph hq
          | triggering =>
            exfalso
            have hct := hI.trigOfPhase r' hr' hph
            rw [ht] at hct
            injection hct with hct
            exact heq hct.symm
          | retried tk =>
            refine Or.inl ⟨tk, ?_⟩
            show (if r' = t then ReqPhase.retried tok
              else if s.phase r' = ReqPhase.queued then ReqPhase.retried tok
              else s.phase r') = ReqPhase.retried tk
            rw [hsame, hph]
          | failed =>
            refine Or.inr ?_
            show (if r' = t then ReqPhase.retried tok
              else if s.phase r' = ReqPhase.queued then ReqPhase.retried tok
              else s.phase r') = ReqPhase.failed
            rw [hsame, hph]
    · intro h; simp at h
    · intro hd
      exact absurd hd (Nat.succ_ne_zero _)
    · refine ⟨tok, fun r' hr' tk h => ?_⟩
      have h' : (if r' = t then ReqPhase.retried tok
          else if s.phase r' = ReqPhase.queued then ReqPhase.retried tok
          else s.phase r') = ReqPhase.retried tk := h
      by_cases heq : r' = t
      · rw [if_pos heq] at h'; injection h' with h'; exact h'.symm
      · rw [if_neg heq] at h'
        by_cases hq : s.phase r' = ReqPhase.queued
        · rw [if_pos hq] at h'; injection h' with h'; exact h'.symm
        · rw [if_neg hq] at h'
          exact absurd h' (hI.noEarlyRetry hdone0 r' hr' tk)
    · intro r' hr' hne
      by_cases heq : r' = t
      · refine Or.inl ?_
        show s.everTrigger = some r'
        rw [heq]; exact hI.trigEver t ht
      · by_cases hq : s.phase r' = ReqPhase.queued
        · have hneq : s.phase r' ≠ .received401 := by rw [hq]; simp
          rcases hI.provenance r' hr' hneq with h | h | h
          · exact Or.inl h
          · exact Or.inr (Or.inl h)
          · rw [hq] at h; simp at h
        · have hsame : (if r' = t then ReqPhase.retried tok
              else if s.phase r' = ReqPhase.queued then ReqPhase.retried tok
              else s.phase r') = s.phase r' := by
            rw [if_neg heq, if_neg hq]
          have hne' : s.phase r' ≠ .received401 := by
            intro hcon
            apply hne
            show (if r' = t then ReqPhase.retried tok
              else if s.phase r' = ReqPhase.queued then ReqPhase.retried tok
              else s.phase r') = ReqPhase.received401
            rw [hsame]; exact hcon
          rcases hI.provenance r' hr' hne' with h | h | h
          · exact Or.inl h
          · exact Or.inr (Or.inl h)
          · refine Or.inr (Or.inr ?_)
            show (if r' = t then ReqPhase.retried tok
              else if s.phase r' = ReqPhase.queued then ReqPhase.retried tok
              else s.phase r') = ReqPhase.failed
            rw [hsame]; exact h
  | refreshFail t hf ht hdrain =>
    have hrefr : s.isRefreshing = true := hI.refreshingOfFlight hf
    have hfl1 : s.refreshInFlight = 1 := by simp [hI.flightFlag, hrefr]
    have hdone0 : s.refreshDone = 0 := hI.refreshingNotDone hrefr
    refine ⟨?_, ?_, ?_, rfl, ?_, ?_, ?_, ?_, ?_, ?_, ?_, ?_, ?_⟩
    · show s.refreshInFlight - 1 = if (false : Bool) then 1 else 0
      rw [hfl1]
      simp
    · have h1 := hI.issuedEq
      show s.refreshIssued = (s.refreshDone + 1) + (s.refreshInFlight - 1)
      omega
    · show s.refreshDone + 1 ≤ 1
      omega
    · intro t' h; simp at h
    · intro r' hr' hph
      exfalso
      have hph' : (if r' = t then ReqPhase.failed
          else if s.phase r' = ReqPhase.queued then ReqPhase.failed
          else s.phase r') = ReqPhase.triggering := hph
      by_cases heq : r' = t
      · rw [if_pos heq] at hph'; simp at hph'
      · rw [if_neg heq] at hph'
        by_cases hq : s.phase r' = ReqPhase.queued
        · rw [if_pos hq] at hph'; simp at hph'
        · rw [if_neg hq] at hph'
          have hct := hI.trigOfPhase r' hr' hph'
          rw [ht] at hct
          injection hct with hct
          exact heq hct.symm
    · intro t' h; simp at h
    · intro _; exact Or.inr (Nat.succ_pos _)
    · intro _ r' hr'
      by_cases heq : r' = t
      · refine Or.inr ?_
        show (if r' = t then ReqPhase.failed
          else if s.phase r' = ReqPhase.queued then ReqPhase.failed
          else s.phase r') = ReqPhase.failed
        rw [if_pos heq]
      · by_cases hq : s.phase r' = ReqPhase.queued
        · refine Or.inr ?_
          show (if r' = t then ReqPhase.failed
            else if s.phase r' = ReqPhase.queued then ReqPhase.failed
            else s.phase r') = ReqPhase.failed
          rw [if_neg heq, if_pos hq]
        · have hsame : (if r' = t then ReqPhase.failed
              else if s.phase r' = ReqPhase.queued then ReqPhase.failed
              else s.phase r') = s.phase r' := by
            rw [if_neg heq, if_neg hq]
          cases hph : s.phase r' with
          | received401 => exact absurd hph (hdrain r' hr')
          | queued => exact absurd hph hq
          | triggering =>
            exfalso
            have hct := hI.trigOfPhase r' hr' hph
            rw [ht] at hct
            injection hct with hct
            exact heq hct.symm
          | retried tk =>
            refine Or.inl ⟨tk, ?_⟩
            show (if r' = t then ReqPhase.failed
              else if s.phase r' = ReqPhase.queued then ReqPhase.failed
              else s.phase r') = ReqPhase.retried tk
            rw [hsame, hph]
          | failed =>
            refine Or.inr ?_
            show (if r' = t then ReqPhase.failed
              else if s.phase r' = ReqPhase.queued then ReqPhase.failed
              else s.phase r') = ReqPhase.failed
            rw [hsame, hph]
    · intro h; simp at h
    · intro hd
      exact absurd hd (Nat.succ_ne_zero _)
    · refine ⟨"", fun r' hr' tk h => ?_⟩
      have h' : (if r' = t then ReqPhase.failed
          else if s.phase r' = ReqPhase.queued then ReqPhase.failed
          else s.phase r') = ReqPhase.retried tk := h
      by_cases heq : r' = t
      · rw [if_pos heq] at h'; simp at h'
      · rw [if_neg heq] at h'
        by_cases hq : s.phase r' = ReqPhase.queued
        · rw [if_pos hq] at h'; simp at h'
        · rw [if_neg hq] at h'
          exact absurd h' (hI.noEarlyRetry hdone0 r' hr' tk)
    · intro r' hr' hne
      by_cases heq : r' = t
      · refine Or.inr (Or.inr ?_)
        show (if r' = t then ReqPhase.failed
          else if s.phase r' = ReqPhase.queued then ReqPhase.failed
          else s.phase r') = ReqPhase.failed
        rw [if_pos heq]
      · by_cases hq : s.phase r' = ReqPhase.queued
        · refine Or.inr (Or.inr ?_)
          show (if r' = t then ReqPhase.failed
            else if s.phase r' = ReqPhase.queued then ReqPhase.failed
            else s.phase r') = ReqPhase.failed
          rw [if_neg heq, if_pos hq]
        · have hsame : (if r' = t then ReqPhase.failed
              else if s.phase r' = ReqPhase.queued then ReqPhase.failed
              else s.phase r') = s.phase r' := by
            rw [if_neg heq, if_neg hq]
          have hne' : s.phase r' ≠ .received401 := by
            intro hcon
            apply hne
            show (if r' = t then ReqPhase.failed
              else if s.phase r' = ReqPhase.queued then ReqPhase.failed
              else s.phase r') = ReqPhase.received401
            rw [hsame]; exact hcon
          rcases hI.provenance r' hr' hne' with h | h | h
          · exact Or.inl h
          · exact Or.inr (Or.inl h)
          · refine Or.inr (Or.inr ?_)
            show (if r' = t then ReqPhase.failed
              else if s.phase r' = ReqPhase.queued then ReqPhase.failed
              else s.phase r') = ReqPhase.failed
            rw [hsame]; exact h


/-- Every reachable state satisfies the invariant. -/
theorem inv_reach {ids : List Nat} {tokPresent : Bool} {s : ClientState}
    (h : Reach ids tokPresent s) : Inv ids s := by
  induction h with
  | init => exact inv_init ids
  | step _ hstep ih => exact inv_step ih hstep

/-- A `find?` over an optional link array succeeds exactly when the array
is present and contains a link with the given relation. -/
theorem find_link_isSome (link : Option (List FhirLink)) (rel : String) :
    (link.bind (List.find? (fun l => l.relation = rel))).isSome = true ↔
      ∃ l ∈ link.getD [], l.relation = rel := by
  cases link with
  | none => simp
  | some ls => simp [List.find?_isSome]

/-! # Theorems for the claims -/

/-- C1: Single-flight refresh — for N ≥ 2 concurrent requests that each
received a 401 while no refresh was in flight, at most one refresh call is
in flight in every reachable state, and in any reachable state where all N
requests have been retried, exactly one refresh request was issued, all N
were retried with the same new access token, and every request either
triggered the one refresh or was enqueued on the pending queue. -/
theorem c1_single_flight_refresh (ids : List Nat) (tokPresent : Bool)
    (hN : 2 ≤ ids.length) :
    (∀ s, Reach ids tokPresent s → s.refreshInFlight ≤ 1) ∧
    (∀ s, Reach ids tokPresent s →
      (∀ r ∈ ids, ∃ tk, s.phase r = ReqPhase.retried tk) →
      s.refreshIssued = 1 ∧
      (∃ tok, ∀ r ∈ ids, s.phase r = ReqPhase.retried tok) ∧
      (∀ r ∈ ids, s.everTrigger = some r ∨ r ∈ s.everQueued)) := by
  constructor
  · intro s h
    have hI := inv_reach h
    rw [hI.flightFlag]
    split <;> omega
  · intro s h hall
    have hI := inv_reach h
    obtain ⟨r0, hr0⟩ : ∃ r, r ∈ ids := by
      cases ids with
      | nil => simp at hN
      | cons a l => exact ⟨a, List.mem_cons_self a l⟩
    obtain ⟨tk0, hp0⟩ := hall r0 hr0
    have hdpos : 0 < s.refreshDone := by
      rcases Nat.eq_zero_or_pos s.refreshDone with h0 | h0
      · exact absurd hp0 (hI.noEarlyRetry h0 r0 hr0 tk0)
      · exact h0
    have hnotref : s.isRefreshing = false := by
      cases hb : s.isRefreshing with
      | true =>
        exfalso
        have hT : s.curTrigger.isSome = true := by rw [hI.trigIff, hb]
        obtain ⟨t, ht⟩ := Option.isSome_iff_exists.mp hT
        obtain ⟨htid, htph⟩ := hI.trigPhase t ht
        obtain ⟨tk, htk⟩ := hall t htid
        rw [htph] at htk
        simp at htk
      | false => rfl
    have hfl : s.refreshInFlight = 0 := by simp [hI.flightFlag, hnotref]
    have hissued : s.refreshIssued = 1 := by
      have h1 := hI.issuedEq
      have h2 := hI.doneLe
      omega
    obtain ⟨tok, htok⟩ := hI.sameTok
    refine ⟨hissued, ⟨tok, fun r hr => ?_⟩, fun r hr => ?_⟩
    · obtain ⟨tk, hk⟩ := hall r hr
      rw [hk, htok r hr tk hk]
    · obtain ⟨tk, hk⟩ := hall r hr
      have hne : s.phase r ≠ .received401 := by rw [hk]; simp
      rcases hI.provenance r hr hne with hh | hh | hh
      · exact Or.inl hh
      · exact Or.inr hh
      · rw [hk] at hh; simp at hh

/-- State after request 0 triggers the refresh. -/
def cState1 : ClientState :=
  { initState [0, 1] with
    isRefreshing := true,
    refreshInFlight := (initState [0, 1]).refreshInFlight + 1,
    refreshIssued := (initState [0, 1]).refreshIssued + 1,
    curTrigger := some 0,
    everTrigger := some 0,
    phase := setPhase (initState [0, 1]).phase 0 ReqPhase.triggering }

/-- State after request 1 is enqueued during the refresh. -/
def cState2 : ClientState :=
  { cState1 with
    phase := setPhase cState1.phase 1 ReqPhase.queued,
    everQueued := 1 :: cState1.everQueued }

/-- State after the refresh succeeds with token `"tokA"`. -/
def cState3 : ClientState :=
  { cState2 with
    isRefreshing := false,
    refreshInFlight := cState2.refreshInFlight - 1,
    refreshDone := cState2.refreshDone + 1,
    curTrigger := none,
    phase := fun x =>
      if x = 0 then ReqPhase.retried "tokA"
      else if cState2.phase x = ReqPhase.queued then ReqPhase.retried "tokA"
      else cState2.phase x }

/-- C1 witness: a concrete two-request run — request 0 triggers the
refresh, request 1 is enqueued, the refresh succeeds — reaches a state
where both requests were retried, and the theorem yields exactly one
issued refresh and a common token. -/
theorem c1_single_flight_refresh_witness :
    2 ≤ ([0, 1] : List Nat).length ∧
    ∃ s, Reach [0, 1] true s ∧
      s.refreshIssued = 1 ∧
      (∃ tok, ∀ r ∈ ([0, 1] : List Nat), s.phase r = ReqPhase.retried tok) ∧
      (∀ r ∈ ([0, 1] : List Nat), s.everTrigger = some r ∨ r ∈ s.everQueued) := by
  have h1 : Step [0, 1] true (initState [0, 1]) cState1 :=
    Step.trigger (initState [0, 1]) 0 (by decide) (by decide) rfl rfl
  have h2 : Step [0, 1] true cState1 cState2 :=
    Step.enqueue cState1 1 (by decide) (by decide) rfl
  have h3 : Step [0, 1] true cState2 cState3 :=
    Step.refreshOk cState2 0 "tokA" (by decide) (by decide) (by decide)
  have hreach : Reach [0, 1] true cState3 :=
    Reach.step (Reach.step (Reach.step Reach.init h1) h2) h3
  have hall3 : ∀ r ∈ ([0, 1] : List Nat),
      cState3.phase r = ReqPhase.retried "tokA" := by decide
  have hall : ∀ r ∈ ([0, 1] : List Nat),
      ∃ tk, cState3.phase r = ReqPhase.retried tk :=
    fun r hr => ⟨"tokA", hall3 r hr⟩
  have hmain :=
    (c1_single_flight_refresh [0, 1] true (by decide)).2 cState3 hreach hall
  exact ⟨by decide, cState3, hreach, hmain.1, hmain.2.1, hmain.2.2⟩

/-- The one-element name array built by `handleSave`: only the edited
family and given names are present. -/
def editedNameElement (form : EditForm) : HumanName :=
  { use := none, text := none, family := some form.nameFamily,
    given := some form.nameGiven, prefixList := none, suffixList := none }

/-- C2: Write-back preservation — the `handleSave` merge leaves every field
not covered by the edit form (address, identifier, extension, id,
resourceType, meta, deceasedBoolean) identical to the original raw
resource, and the edited fields carry the edited values. -/
theorem c2_writeback_preservation (raw : FhirPatient) (form : EditForm) :
    (mergeEdits raw form).address = raw.address ∧
    (mergeEdits raw form).identifier = raw.identifier ∧
    (mergeEdits raw form).extension = raw.extension ∧
    (mergeEdits raw form).id = raw.id ∧
    (mergeEdits raw form).resourceType = raw.resourceType ∧
    (mergeEdits raw form).meta = raw.meta ∧
    (mergeEdits raw form).deceasedBoolean = raw.deceasedBoolean ∧
    (mergeEdits raw form).telecom = some form.telecom ∧
    (mergeEdits raw form).gender = some form.gender ∧
    (mergeEdits raw form).birthDate = some form.birthDate ∧
    (mergeEdits raw form).active = some form.active ∧
    (mergeEdits raw form).name = some [editedNameElement form] ∧
    ((mergeEdits raw form).maritalStatus.map MaritalStatus.text) =
      some (some form.maritalStatus) :=
  ⟨rfl, rfl, rfl, rfl, rfl, rfl, rfl, rfl, rfl, rfl, rfl, rfl, rfl⟩

/-- C3: The interceptor's branch structure — after a queued request is
resumed its `_retry` marker is still unset, so a second 401 (with the
refresh finished) starts a second refresh instead of surfacing the
failure; only the triggering path, which sets `_retry`, surfaces a second
401. -/
theorem c3_queued_retry_starts_second_refresh :
    (queuedResume { retryFlag := false, auth := none } "newTok").retryFlag = false ∧
    interceptorDecision 401
      (queuedResume { retryFlag := false, auth := none } "newTok").retryFlag false
      = HandlerAction.startRefresh ∧
    interceptorDecision 401
      (queuedResume { retryFlag := false, auth := none } "newTok").retryFlag false
      ≠ HandlerAction.surface ∧
    (triggerResume { retryFlag := false, auth := none } "newTok").retryFlag = true ∧
    interceptorDecision 401
      (triggerResume { retryFlag := false, auth := none } "newTok").retryFlag false
      = HandlerAction.surface := by decide

/-- C4: Fallback completeness — the `formatted` view of a patient resource
with every optional field absent equals the documented fallbacks in every
field; no field is an optional/null value. -/
theorem c4_fallback_completeness (resourceType id : String) :
    formatPatient (emptyPatient resourceType id) =
      { identifier := "N/A",
        name := { family := "Unknown", given := ["Unknown"],
                  full := "Unknown Unknown" },
        gender := "unknown", birthDate := "Unknown", active := false,
        deceased := false, maritalStatus := "Unknown",
        lastUpdated := "Unknown", telecom := [], address := [],
        ethnicity := "Unspecified" } := rfl

/-- A bundle whose only navigation link carries the relation string
`"previous"`. -/
def prevBundle : Bundle :=
  { total := none, entry := none,
    link := some [{ relation := "previous", url := "u" }] }

/-- C5 counterexample: the bundle's link array contains a link with
relation `"previous"`, yet `hasPrev` is `false` — the code tests for the
relation string `"prev"`, not `"previous"`. -/
theorem c5_counterexample :
    (∃ l ∈ prevBundle.link.getD [], l.relation = "previous") ∧
    (transformBundle prevBundle 1).pagination.hasPrev = false := by decide

/-- C5 (amended): `hasNext` is true exactly when the bundle's link array
contains a link with relation `"next"`, `hasPrev` exactly when it contains
one with relation `"prev"` (not `"previous"`); both flags depend only on
the link array, never on the total or entry count. -/
theorem c5_pagination_link_fidelity (data data2 : Bundle) (page page2 : Int) :
    ((transformBundle data page).pagination.hasNext = true ↔
      ∃ l ∈ data.link.getD [], l.relation = "next") ∧
    ((transformBundle data page).pagination.hasPrev = true ↔
      ∃ l ∈ data.link.getD [], l.relation = "prev") ∧
    (data.link = data2.link →
      (transformBundle data page).pagination.hasNext =
        (transformBundle data2 page2).pagination.hasNext ∧
      (transformBundle data page).pagination.hasPrev =
        (transformBundle data2 page2).pagination.hasPrev) := by
  refine ⟨find_link_isSome data.link "next", find_link_isSome data.link "prev",
    fun h => ?_⟩
  constructor <;> simp [transformBundle, h]

/-- A bundle whose only link has relation `"next"`. -/
def nextBundle : Bundle :=
  { total := some 5, entry := none,
    link := some [{ relation := "next", url := "u2" }] }

/-- The same links as `nextBundle` but a different total. -/
def nextBundle2 : Bundle :=
  { total := some 99, entry := none,
    link := some [{ relation := "next", url := "u2" }] }

/-- C5 witness: a bundle with only a `"next"` link yields `hasNext = true`
and `hasPrev = false`, and the flags agree with a bundle that differs only
in its total. -/
theorem c5_pagination_link_fidelity_witness :
    nextBundle.link = nextBundle2.link ∧
    (transformBundle nextBundle 1).pagination.hasNext =
      (transformBundle nextBundle2 3).pagination.hasNext ∧
    (transformBundle nextBundle 1).pagination.hasNext = true ∧
    (transformBundle nextBundle 1).pagination.hasPrev = false :=
  ⟨rfl,
   ((c5_pagination_link_fidelity nextBundle nextBundle2 1 3).2.2 rfl).1,
   (c5_pagination_link_fidelity nextBundle nextBundle2 1 3).1.mpr
     ⟨{ relation := "next", url := "u2" }, by decide, rfl⟩,
   by decide⟩

/-- C6: Login input validation — a login request with a missing or empty
username or password is answered by the 400 branch carrying the non-empty
validation issues, not by the outbound grant call. -/
theorem c6_login_validation (username password : Option String)
    (h : username = none ∨ username = some "" ∨
      password = none ∨ password = some "") :
    loginRoute username password =
      LoginAction.badRequest (loginIssues username password) ∧
    loginIssues username password ≠ [] := by
  have hne : loginIssues username password ≠ [] := by
    cases username with
    | none => simp [loginIssues]
    | some u =>
      cases password with
      | none => by_cases hu : u = "" <;> simp [loginIssues, hu]
      | some pw =>
        rcases h with h | h | h | h
        · exact absurd h (by simp)
        · injection h with h; subst h; simp [loginIssues]
        · exact absurd h (by simp)
        · injection h with h; subst h
          by_cases hu : u = "" <;> simp [loginIssues, hu]
  refine ⟨?_, hne⟩
  simp only [loginRoute, if_neg hne]

/-- C6 witness: login with a username and an empty password is rejected
with status-400 issues and no grant call. -/
theorem c6_login_validation_witness :
    loginRoute (some "admin") (some "") =
      LoginAction.badRequest ["Password is required"] ∧
    loginIssues (some "admin") (some "") ≠ [] := by
  have h := c6_login_validation (some "admin") (some "")
    (Or.inr (Or.inr (Or.inr rfl)))
  exact ⟨h.1.trans (by decide), h.2⟩

/-- A PUT body whose id 43 differs from the path id 42. -/
def c7Body : PutBody :=
  { resourceType := some "Patient", id := some "43", rest := [] }

/-- C7 counterexample: a PUT request whose body id (43) differs from the
path id (42) but which carries no access-token cookie is answered 401, not
with the 400 id-mismatch error — the token check precedes the id check. -/
theorem c7_counterexample :
    putPatientRoute "42" none c7Body =
      PutOutcome.response 401 "Unauthorized - No access token found" ∧
    putPatientRoute "42" none c7Body ≠
      PutOutcome.response 400
        "Patient ID in URL does not match ID in request body" := by decide

/-- C7 (amended): for a PUT request carrying an access-token cookie, a
non-empty path id and a body with truthy `resourceType` and `id`: if the
body id differs from the path id the endpoint returns the 400 id-mismatch
error and makes no remote call; if they match, the body is forwarded to
the remote PUT path for that id. -/
theorem c7_put_id_mismatch (pathId token : String) (body : PutBody)
    (hpath : pathId ≠ "")
    (hrt : jsTruthy body.resourceType = true)
    (hid : jsTruthy body.id = true) :
    (body.id ≠ some pathId →
      putPatientRoute pathId (some token) body =
        PutOutcome.response 400
          "Patient ID in URL does not match ID in request body") ∧
    (body.id = some pathId →
      putPatientRoute pathId (some token) body =
        PutOutcome.forward pathId body) := by
  constructor <;> intro hcond
  · simp [putPatientRoute, hpath, hrt, hid, hcond]
  · have hidt : jsTruthy (some pathId) = true := by
      simp [jsTruthy, hpath]
    simp [putPatientRoute, hpath, hrt, hcond, hidt]

/-- A PUT body whose id matches the path id 42. -/
def c7BodyOk : PutBody :=
  { resourceType := some "Patient", id := some "42", rest := [] }

/-- C7 witness: with a token and matching ids, the body is forwarded to
the remote PUT path. -/
theorem c7_put_id_mismatch_witness :
    putPatientRoute "42" (some "tk") c7BodyOk =
      PutOutcome.forward "42" c7BodyOk :=
  (c7_put_id_mismatch "42" "tk" c7BodyOk (by decide) (by decide)
    (by decide)).2 rfl

/-- C8 counterexample: outside production (`NODE_ENV !== 'production'`)
both login cookies are written with `secure = false`, so a successful
login does not set two secure cookies as the claim states. -/
theorem c8_counterexample :
    (loginSuccessResponse false
      { access_token := "a", refresh_token := "r" }).cookies.map
        SetCookie.secure = [false, false] := rfl

/-- C8 (amended): a successful login sets exactly the two cookies
`access_token` and `refresh_token`, both HTTP-only and same-site strict,
secure exactly when the server runs in production mode, with distinct
max-ages 3600 and 604800 (access shorter), and returns the raw token
response body. -/
theorem c8_login_cookie_policy (isProd : Bool) (data : TokenResponse) :
    (loginSuccessResponse isProd data).cookies.map SetCookie.name =
      ["access_token", "refresh_token"] ∧
    (loginSuccessResponse isProd data).cookies.map SetCookie.httpOnly =
      [true, true] ∧
    (loginSuccessResponse isProd data).cookies.map SetCookie.sameSite =
      ["strict", "strict"] ∧
    (loginSuccessResponse isProd data).cookies.map SetCookie.secure =
      [isProd, isProd] ∧
    (loginSuccessResponse isProd data).cookies.map SetCookie.maxAge =
      [3600, 604800] ∧
    (loginSuccessResponse isProd data).cookies.map SetCookie.value =
      [data.access_token, data.refresh_token] ∧
    (loginSuccessResponse isProd data).body = data :=
  ⟨rfl, rfl, rfl, rfl, rfl, rfl, rfl⟩

/-- C9: Saving an edit replaces the whole raw name array by a one-element
array holding only the edited family and given names (other entries and
sub-fields such as use, text, prefix and suffix are discarded), while the
marital-status merge preserves the existing coding and overwrites only the
text. -/
theorem c9_name_replacement_marital_merge (raw : FhirPatient) (form : EditForm) :
    (mergeEdits raw form).name = some [editedNameElement form] ∧
    ((mergeEdits raw form).maritalStatus.bind MaritalStatus.coding) =
      raw.maritalStatus.bind MaritalStatus.coding ∧
    ((mergeEdits raw form).maritalStatus.map MaritalStatus.text) =
      some (some form.maritalStatus) :=
  ⟨rfl, rfl, rfl⟩

/-- C10: In the list endpoint, `fullUrl` is copied verbatim from the entry
(and is therefore absent when the entry has none), while every other field
of a patient entry built from a resource with all optional fields absent
equals its non-null fallback. -/
theorem c10_fullUrl_passthrough :
    (∀ entry : FhirEntry, (transformEntry entry).fullUrl = entry.fullUrl) ∧
    (∀ fu : Option String,
      transformEntry { fullUrl := fu, resource := emptyEntryResource } =
        { id := "N/A", fullUrl := fu, identifier := "N/A",
          name := { family := "Unknown", given := ["Unknown"],
                    full := "Unknown Unknown" },
          gender := "unknown", birthDate := "Unknown", active := false,
          maritalStatus := "Unknown", lastUpdated := "Unknown" }) :=
  ⟨fun _ => rfl, fun _ => rfl⟩

end EHR
